import Mathlib

/-! Verification of the ideal-gas particle simulation core (pygame/ideal_gas.py):
the particle wall-update step, the spatial-grid broad phase, the elastic
particle-particle collision resolver, and the simulation-level pressure /
temperature bookkeeping and container resize.

The exact-arithmetic parts of the program (position integration, wall clamping,
grid indexing, pressure accounting, resize) are embedded over ℚ so that every
definition is executable.  The narrow-phase collision resolver takes a square
root, so it is embedded over ℝ in a mirror structure. -/

namespace IdealGas

/-- PARTICLE_SIZE = 5: radius of gas particles. -/
def PARTICLE_SIZE : ℚ := 5

/-- PARTICLE_COUNT = 100: number of particles in the simulation. -/
def PARTICLE_COUNT : ℕ := 100

/-- GAS_CONSTANT = 1: simplified gas constant. -/
def GAS_CONSTANT : ℚ := 1

/-- CELL_SIZE = PARTICLE_SIZE * 2: each grid cell is at least a particle diameter. -/
def CELL_SIZE : ℚ := PARTICLE_SIZE * 2

/-- State of class Particle.  The speed-dependent display color is render-only
and is not modelled; the cached grid-cell indices cell_x / cell_y are carried
along as in the source (they are written but never read by the modelled
operations: SpatialGrid.insert and get_potential_collisions recompute the cell
from the position). -/
structure Particle where
  x : ℚ
  y : ℚ
  vx : ℚ
  vy : ℚ
  radius : ℚ
  mass : ℚ
  cell_x : ℤ
  cell_y : ℤ
deriving DecidableEq

/-- Particle.__init__(x, y, vx, vy): radius PARTICLE_SIZE, mass 1.0, cached
cell indices floor(position / CELL_SIZE) (Python float floor-division). -/
def Particle.init (x y vx vy : ℚ) : Particle :=
  { x := x, y := y, vx := vx, vy := vy, radius := PARTICLE_SIZE, mass := 1,
    cell_x := ⌊x / CELL_SIZE⌋, cell_y := ⌊y / CELL_SIZE⌋ }

/-- Particle.update(width, height): advance the position by the velocity, then
handle each wall independently — on the low wall set the velocity component to
abs(v) and clamp the position to radius, on the high wall set it to -abs(v) and
clamp to (bound - radius); finally recompute the cached cell indices.  Returns
the updated particle together with the wall-collision flag. -/
def Particle.update (p : Particle) (width height : ℚ) : Particle × Bool :=
  let x1 := p.x + p.vx
  let y1 := p.y + p.vy
  let x2 := if x1 - p.radius < 0 then p.radius
            else if x1 + p.radius > width then width - p.radius else x1
  let vx2 := if x1 - p.radius < 0 then |p.vx|
             else if x1 + p.radius > width then -|p.vx| else p.vx
  let cx := if x1 - p.radius < 0 then true
            else if x1 + p.radius > width then true else false
  let y2 := if y1 - p.radius < 0 then p.radius
            else if y1 + p.radius > height then height - p.radius else y1
  let vy2 := if y1 - p.radius < 0 then |p.vy|
             else if y1 + p.radius > height then -|p.vy| else p.vy
  let cy := if y1 - p.radius < 0 then true
            else if y1 + p.radius > height then true else false
  ({ p with
      x := x2, y := y2, vx := vx2, vy := vy2,
      cell_x := ⌊x2 / CELL_SIZE⌋, cell_y := ⌊y2 / CELL_SIZE⌋ }, cx || cy)

/-- Iterated Particle.update against fixed container bounds (n ticks of a lone
particle: no particle-particle collisions intervene). -/
def Particle.updateIter (p : Particle) (width height : ℚ) : ℕ → Particle
  | 0 => p
  | n + 1 => ((Particle.updateIter p width height n).update width height).1

/-- Geometry of class SpatialGrid (SpatialGrid.__init__): cell_size CELL_SIZE,
cols = int(width // cell_size) + 1, rows = int(height // cell_size) + 1.
Cell contents are recovered from the particle list by cellList below, since the
grid is rebuilt from scratch each tick with each particle inserted once. -/
structure SpatialGrid where
  cell_size : ℚ
  cols : ℤ
  rows : ℤ
deriving DecidableEq

/-- SpatialGrid.__init__(width, height). -/
def SpatialGrid.init (width height : ℚ) : SpatialGrid :=
  { cell_size := CELL_SIZE,
    cols := ⌊width / CELL_SIZE⌋ + 1,
    rows := ⌊height / CELL_SIZE⌋ + 1 }

/-- The clamped cell a particle is filed under: SpatialGrid.insert computes
col = min(max(0, int(x // cell_size)), cols - 1) and likewise for row, and
get_potential_collisions computes the query cell by the same formula. -/
def SpatialGrid.cellOf (g : SpatialGrid) (p : Particle) : ℤ × ℤ :=
  (min (max 0 ⌊p.x / g.cell_size⌋) (g.cols - 1),
   min (max 0 ⌊p.y / g.cell_size⌋) (g.rows - 1))

/-- Contents of grid cell c after clear() followed by insert(p) for every p in
ps (each particle appended to exactly the cell cellOf computes). -/
def SpatialGrid.cellList (g : SpatialGrid) (ps : List Particle) (c : ℤ × ℤ) : List Particle :=
  ps.filter (fun p => g.cellOf p = c)

/-- Integer interval [a, b): the index set of Python range(a, b). -/
def intRange (a b : ℤ) : List ℤ :=
  (List.range (b - a).toNat).map (fun k : ℕ => a + (k : ℤ))

/-- SpatialGrid.get_potential_collisions(particle): every particle filed in the
3x3 block of cells around the query particle's clamped cell, the block being
cut off at the grid edges (range(max(0, col-1), min(col+2, cols)) in each
dimension), in the row-major order of the Python double loop. -/
def SpatialGrid.get_potential_collisions (g : SpatialGrid) (ps : List Particle)
    (p : Particle) : List Particle :=
  let col := min (max 0 ⌊p.x / g.cell_size⌋) (g.cols - 1)
  let row := min (max 0 ⌊p.y / g.cell_size⌋) (g.rows - 1)
  (intRange (max 0 (col - 1)) (min (col + 2) g.cols)).flatMap (fun i =>
    (intRange (max 0 (row - 1)) (min (row + 2) g.rows)).flatMap (fun j =>
      g.cellList ps (i, j)))

/-- State of class Simulation. -/
structure Simulation where
  width : ℚ
  height : ℚ
  particles : List Particle
  spatial_grid : SpatialGrid
  volume : ℚ
  pressure : ℚ
  temperature : ℚ
  collision_count : ℕ
  time_elapsed : ℚ
deriving DecidableEq

/-- Simulation.__init__(width, height).  The np.random.uniform draws are
supplied from outside: sample i yields the four unit-interval draws
(ux, uy, uvx, uvy) for particle i, which np.random.uniform(low, high) maps
affinely to low + (high - low) * u.  No input is validated: the constructor is
total and never rejects a configuration. -/
def Simulation.init (width height : ℚ) (sample : ℕ → ℚ × ℚ × ℚ × ℚ) : Simulation :=
  { width := width,
    height := height,
    particles := (List.range PARTICLE_COUNT).map (fun i =>
      Particle.init
        (PARTICLE_SIZE + (width - PARTICLE_SIZE - PARTICLE_SIZE) * (sample i).1)
        (PARTICLE_SIZE + (height - PARTICLE_SIZE - PARTICLE_SIZE) * (sample i).2.1)
        (-5 + (5 - -5) * (sample i).2.2.1)
        (-5 + (5 - -5) * (sample i).2.2.2)),
    spatial_grid := SpatialGrid.init width height,
    volume := width * height,
    pressure := 0,
    temperature := 0,
    collision_count := 0,
    time_elapsed := 0 }

/-- The pressure / temperature bookkeeping tail of Simulation.update(dt) for
one tick, with this tick's wall-collision total supplied as a parameter (the
particle-update and collision phases feed this bookkeeping only through that
count).  Mirrors the source: time_elapsed += dt; collision_count += wall
collisions; if time_elapsed >= 1.0 then pressure = collision_count /
(time_elapsed * width * height) * 1e3 and both tracking variables reset; and on
every call temperature = pressure * volume / (PARTICLE_COUNT * GAS_CONSTANT). -/
def Simulation.pressureStep (s : Simulation) (dt : ℚ) (wall_collisions : ℕ) : Simulation :=
  let te := s.time_elapsed + dt
  let cc := s.collision_count + wall_collisions
  let pr := if te ≥ 1 then (cc : ℚ) / (te * s.width * s.height) * 1000 else s.pressure
  { s with
      pressure := pr,
      collision_count := if te ≥ 1 then 0 else cc,
      time_elapsed := if te ≥ 1 then 0 else te,
      temperature := pr * s.volume / ((PARTICLE_COUNT : ℚ) * GAS_CONSTANT) }

/-- Simulation.resize(width, height): store the new dimensions and volume,
rescale every particle's position by the per-axis ratio of new to old
dimensions, clamping via min(max(scaled, radius), bound - radius), and refresh
the cached cell indices.  Velocities are untouched. -/
def Simulation.resize (s : Simulation) (width height : ℚ) : Simulation :=
  { s with
      width := width,
      height := height,
      volume := width * height,
      particles := s.particles.map (fun p =>
        let x := min (max (p.x * (width / s.width)) p.radius) (width - p.radius)
        let y := min (max (p.y * (height / s.height)) p.radius) (height - p.radius)
        { p with
            x := x, y := y,
            cell_x := ⌊x / CELL_SIZE⌋, cell_y := ⌊y / CELL_SIZE⌋ }) }

/-- Mirror of Particle state over ℝ for check_particle_collision, whose narrow
phase takes a square root.  The cached cell indices and the render-only color
are not read or written by the resolver and are omitted here. -/
structure RParticle where
  x : ℝ
  y : ℝ
  vx : ℝ
  vy : ℝ
  radius : ℝ
  mass : ℝ

/-- Local distance of check_particle_collision:
distance = sqrt(dx ** 2 + dy ** 2) with dx = p2.x - p1.x, dy = p2.y - p1.y. -/
noncomputable def cdist (p1 p2 : RParticle) : ℝ :=
  Real.sqrt ((p2.x - p1.x) ^ 2 + (p2.y - p1.y) ^ 2)

/-- Local nx of check_particle_collision: nx = dx / distance. -/
noncomputable def cnx (p1 p2 : RParticle) : ℝ := (p2.x - p1.x) / cdist p1 p2

/-- Local ny of check_particle_collision: ny = dy / distance. -/
noncomputable def cny (p1 p2 : RParticle) : ℝ := (p2.y - p1.y) / cdist p1 p2

/-- Local normal_vel of check_particle_collision:
normal_vel = dvx * nx + dvy * ny with dvx = p2.vx - p1.vx, dvy = p2.vy - p1.vy. -/
noncomputable def cnormal_vel (p1 p2 : RParticle) : ℝ :=
  (p2.vx - p1.vx) * cnx p1 p2 + (p2.vy - p1.vy) * cny p1 p2

/-- Local v1n of check_particle_collision:
v1n = ((m1 - m2) * (p1.vx * nx + p1.vy * ny) + 2 * m2 * (p2.vx * nx + p2.vy * ny)) / (m1 + m2). -/
noncomputable def cv1n (p1 p2 : RParticle) : ℝ :=
  ((p1.mass - p2.mass) * (p1.vx * cnx p1 p2 + p1.vy * cny p1 p2) +
    2 * p2.mass * (p2.vx * cnx p1 p2 + p2.vy * cny p1 p2)) / (p1.mass + p2.mass)

/-- Local v2n of check_particle_collision:
v2n = ((m2 - m1) * (p2.vx * nx + p2.vy * ny) + 2 * m1 * (p1.vx * nx + p1.vy * ny)) / (m1 + m2). -/
noncomputable def cv2n (p1 p2 : RParticle) : ℝ :=
  ((p2.mass - p1.mass) * (p2.vx * cnx p1 p2 + p2.vy * cny p1 p2) +
    2 * p1.mass * (p1.vx * cnx p1 p2 + p1.vy * cny p1 p2)) / (p1.mass + p2.mass)

/-- Local v1t of check_particle_collision: v1t = p1.vx * tx + p1.vy * ty with
the tangent tx = -ny, ty = nx. -/
noncomputable def cv1t (p1 p2 : RParticle) : ℝ :=
  p1.vx * (-(cny p1 p2)) + p1.vy * cnx p1 p2

/-- Local v2t of check_particle_collision: v2t = p2.vx * tx + p2.vy * ty. -/
noncomputable def cv2t (p1 p2 : RParticle) : ℝ :=
  p2.vx * (-(cny p1 p2)) + p2.vy * cnx p1 p2

/-- Local overlap of check_particle_collision:
overlap = p1.radius + p2.radius - distance. -/
noncomputable def coverlap (p1 p2 : RParticle) : ℝ :=
  p1.radius + p2.radius - cdist p1 p2

/-- check_particle_collision(p1, p2): resolve an elastic collision between two
distinct particles, returning the updated pair and the collision flag.
Branches as in the source: the overlap guard distance < p1.radius + p2.radius,
the separation guard normal_vel >= 0 (then no resolution), the velocity
exchange along the collision normal (tangential components kept), and the
positional separation by half the overlap each when overlap > 0.  The Python
`p1 is p2` object-identity guard, which skips the self-pair that the candidate
query yields, has no counterpart on pure values; every claim below concerns
two distinct particles. -/
noncomputable def check_particle_collision (p1 p2 : RParticle) :
    RParticle × RParticle × Bool :=
  if cdist p1 p2 < p1.radius + p2.radius then
    if cnormal_vel p1 p2 ≥ 0 then (p1, p2, false)
    else
      let q1 : RParticle :=
        { p1 with
            vx := cv1n p1 p2 * cnx p1 p2 + cv1t p1 p2 * (-(cny p1 p2)),
            vy := cv1n p1 p2 * cny p1 p2 + cv1t p1 p2 * cnx p1 p2 }
      let q2 : RParticle :=
        { p2 with
            vx := cv2n p1 p2 * cnx p1 p2 + cv2t p1 p2 * (-(cny p1 p2)),
            vy := cv2n p1 p2 * cny p1 p2 + cv2t p1 p2 * cnx p1 p2 }
      if coverlap p1 p2 > 0 then
        ({ q1 with
            x := q1.x - 0.5 * coverlap p1 p2 * cnx p1 p2,
            y := q1.y - 0.5 * coverlap p1 p2 * cny p1 p2 },
         { q2 with
            x := q2.x + 0.5 * coverlap p1 p2 * cnx p1 p2,
            y := q2.y + 0.5 * coverlap p1 p2 * cny p1 p2 },
         true)
      else (q1, q2, true)
  else (p1, p2, false)

/-- Reachability of a zero divisor in the narrow phase: the collision-normal
division nx = dx / distance (and ny = dy / distance) is evaluated exactly when
the overlap guard distance < p1.radius + p2.radius passes, and its divisor is
the local distance.  This proposition states that the division is reached with
divisor zero. -/
noncomputable def normalDivisorZero (p1 p2 : RParticle) : Prop :=
  cdist p1 p2 < p1.radius + p2.radius ∧ cdist p1 p2 = 0

/-- Concrete particle for exercising the wall-containment theorem. -/
def Pc1 : Particle := Particle.init 1 1 (-30) 50

/-- Concrete particle that reaches the left wall while already moving right. -/
def Pw : Particle := Particle.init (-10) 10 1 0

/-- Concrete grid particle A. -/
def GA : Particle := Particle.init 20 20 0 0

/-- Concrete grid particle B, overlapping A. -/
def GB : Particle := Particle.init 26 20 0 0

/-- Concrete particle near the left wall of a 700 x 500 container. -/
def P0 : Particle := Particle.init 6 100 1 2

/-- Concrete simulation holding P0 in a 700 x 500 container. -/
def S0 : Simulation :=
  { width := 700,
    height := 500,
    particles := [P0],
    spatial_grid := SpatialGrid.init 700 500,
    volume := 350000,
    pressure := 0,
    temperature := 0,
    collision_count := 0,
    time_elapsed := 0 }

/-- Concrete simulation mid-way through a pressure sampling window. -/
def Swin : Simulation :=
  { width := 10,
    height := 20,
    particles := [],
    spatial_grid := SpatialGrid.init 10 20,
    volume := 200,
    pressure := 7,
    temperature := 0,
    collision_count := 4,
    time_elapsed := 1/2 }

/-- Concrete colliding pair, first particle: at the origin moving toward RP2. -/
def RP1 : RParticle :=
  { x := 0, y := 0, vx := 1, vy := 1, radius := 3, mass := 1 }

/-- Concrete colliding pair, second particle: at (3, 4), at rest, overlapping RP1. -/
def RP2 : RParticle :=
  { x := 3, y := 4, vx := 0, vy := 0, radius := 3, mass := 1 }

/-- Concrete degenerate pair, first particle. -/
def RZ1 : RParticle :=
  { x := 0, y := 0, vx := 1, vy := 0, radius := 5, mass := 1 }

/-- Concrete degenerate pair, second particle: a distinct particle at exactly
the same position as RZ1. -/
def RZ2 : RParticle :=
  { x := 0, y := 0, vx := -1, vy := 0, radius := 5, mass := 1 }

/-- C1: for every particle and container bounds with 2*radius <= width and
2*radius <= height, after any call to Particle.update(width, height) — from
any starting position and velocity — the particle's position satisfies
radius <= x <= width - radius and radius <= y <= height - radius. -/
theorem update_contains (p : Particle) (width height : ℚ)
    (hw : 2 * p.radius ≤ width) (hh : 2 * p.radius ≤ height) :
    p.radius ≤ ((p.update width height).1).x ∧
    ((p.update width height).1).x ≤ width - p.radius ∧
    p.radius ≤ ((p.update width height).1).y ∧
    ((p.update width height).1).y ≤ height - p.radius := by
  simp only [Particle.update]
  split_ifs <;> refine ⟨?_, ?_, ?_, ?_⟩ <;> linarith

/-- Witness for update_contains at a concrete particle in a 40 x 40 box. -/
theorem update_contains_witness :
    (2 * Pc1.radius ≤ 40 ∧ 2 * Pc1.radius ≤ 40) ∧
    (Pc1.radius ≤ ((Pc1.update 40 40).1).x ∧
     ((Pc1.update 40 40).1).x ≤ 40 - Pc1.radius ∧
     Pc1.radius ≤ ((Pc1.update 40 40).1).y ∧
     ((Pc1.update 40 40).1).y ≤ 40 - Pc1.radius) :=
  ⟨⟨by norm_num [Pc1, Particle.init, PARTICLE_SIZE],
    by norm_num [Pc1, Particle.init, PARTICLE_SIZE]⟩,
   update_contains Pc1 40 40 (by norm_num [Pc1, Particle.init, PARTICLE_SIZE])
     (by norm_num [Pc1, Particle.init, PARTICLE_SIZE])⟩

/-- C2 counterexample: the claim says a wall contact negates the corresponding
velocity component, but a particle whose leading edge is past the left wall
while it is already moving right (vx = 1) keeps vx = +1 = abs(vx) after the
update, not -1. -/
theorem update_negates_counterexample :
    (Pw.x + Pw.vx - Pw.radius < 0) ∧ ((Pw.update 100 100).1).vx ≠ -Pw.vx := by
  constructor
  · norm_num [Pw, Particle.init, PARTICLE_SIZE]
  · norm_num [Pw, Particle.init, PARTICLE_SIZE, Particle.update]

/-- C2 amended: per-axis wall handling of Particle.update.  On a low-wall
contact the position is clamped to radius and the velocity component is
replaced by abs(v) (pointing into the container); on a high-wall contact the
position is clamped to bound - radius and the component is replaced by -abs(v);
otherwise both are the freely advanced values.  This equals negation exactly
when the component pointed toward the violated wall.  The call returns true if
and only if at least one of the four wall contacts happened. -/
theorem update_wall_spec (p : Particle) (width height : ℚ) :
    ((p.x + p.vx - p.radius < 0 →
        ((p.update width height).1).x = p.radius ∧
        ((p.update width height).1).vx = |p.vx|) ∧
     (¬(p.x + p.vx - p.radius < 0) → p.x + p.vx + p.radius > width →
        ((p.update width height).1).x = width - p.radius ∧
        ((p.update width height).1).vx = -|p.vx|) ∧
     (¬(p.x + p.vx - p.radius < 0) → ¬(p.x + p.vx + p.radius > width) →
        ((p.update width height).1).x = p.x + p.vx ∧
        ((p.update width height).1).vx = p.vx)) ∧
    ((p.y + p.vy - p.radius < 0 →
        ((p.update width height).1).y = p.radius ∧
        ((p.update width height).1).vy = |p.vy|) ∧
     (¬(p.y + p.vy - p.radius < 0) → p.y + p.vy + p.radius > height →
        ((p.update width height).1).y = height - p.radius ∧
        ((p.update width height).1).vy = -|p.vy|) ∧
     (¬(p.y + p.vy - p.radius < 0) → ¬(p.y + p.vy + p.radius > height) →
        ((p.update width height).1).y = p.y + p.vy ∧
        ((p.update width height).1).vy = p.vy)) ∧
    ((p.update width height).2 = true ↔
      (p.x + p.vx - p.radius < 0 ∨ p.x + p.vx + p.radius > width ∨
       p.y + p.vy - p.radius < 0 ∨ p.y + p.vy + p.radius > height)) := by
  simp only [Particle.update]
  split_ifs <;> simp_all

/-- Witness for update_wall_spec: a concrete left-wall contact is clamped to
the radius with velocity abs(vx). -/
theorem update_wall_spec_witness :
    (Pw.x + Pw.vx - Pw.radius < 0) ∧
    (((Pw.update 100 100).1).x = Pw.radius ∧
     ((Pw.update 100 100).1).vx = |Pw.vx|) :=
  ⟨by norm_num [Pw, Particle.init, PARTICLE_SIZE],
   (update_wall_spec Pw 100 100).1.1 (by norm_num [Pw, Particle.init, PARTICLE_SIZE])⟩

/-- Kinetic-energy invariance of one wall update: reflection only replaces a
velocity component by plus or minus its absolute value. -/
theorem update_energy (p : Particle) (width height : ℚ) :
    ((p.update width height).1).vx ^ 2 + ((p.update width height).1).vy ^ 2 =
      p.vx ^ 2 + p.vy ^ 2 := by
  simp only [Particle.update]
  split_ifs <;> simp [sq_abs]

/-- C7: a single particle with no neighbors, repeatedly updated against fixed
container bounds (wall bounces only), has exactly constant vx^2 + vy^2 across
any number of Particle.update calls. -/
theorem energy_conserved (p : Particle) (width height : ℚ) (n : ℕ) :
    (Particle.updateIter p width height n).vx ^ 2 +
      (Particle.updateIter p width height n).vy ^ 2 = p.vx ^ 2 + p.vy ^ 2 := by
  induction n with
  | zero => rfl
  | succ k ih =>
    rw [Particle.updateIter, update_energy]
    exact ih

/-- C5: pressure updates exactly once per sampling window.  When the
accumulated window time reaches 1.0, pressure becomes the window's
wall-collision count divided by (window duration * width * height), scaled by
1e3, the count and timer reset, and temperature is derived by the ideal-gas
relation from the new pressure; on a tick that does not close the window the
pressure is unchanged. -/
theorem pressure_window (s : Simulation) (dt : ℚ) (wall_collisions : ℕ) :
    (1 ≤ s.time_elapsed + dt →
      (s.pressureStep dt wall_collisions).pressure =
        ((s.collision_count + wall_collisions : ℕ) : ℚ) /
          ((s.time_elapsed + dt) * s.width * s.height) * 1000 ∧
      (s.pressureStep dt wall_collisions).collision_count = 0 ∧
      (s.pressureStep dt wall_collisions).time_elapsed = 0 ∧
      (s.pressureStep dt wall_collisions).temperature =
        (s.pressureStep dt wall_collisions).pressure * s.volume /
          ((PARTICLE_COUNT : ℚ) * GAS_CONSTANT)) ∧
    (s.time_elapsed + dt < 1 →
      (s.pressureStep dt wall_collisions).pressure = s.pressure) := by
  simp only [Simulation.pressureStep]
  constructor
  · intro h
    rw [if_pos h, if_pos h, if_pos h]
    exact ⟨rfl, rfl, rfl, trivial⟩
  · intro h
    rw [if_neg (not_le.2 h)]

/-- Witness for pressure_window: a window of 4 + 6 collisions over 5/4 time in
a 10 x 20 box closes with pressure (4 + 6) / (5/4 * 10 * 20) * 1000 = 40, and
a non-closing tick keeps the previous pressure 7. -/
theorem pressure_window_witness :
    ((1 : ℚ) ≤ Swin.time_elapsed + 3/4 ∧ (Swin.pressureStep (3/4) 6).pressure = 40) ∧
    (Swin.time_elapsed + 1/4 < 1 ∧ (Swin.pressureStep (1/4) 6).pressure = 7) := by
  constructor
  · refine ⟨by norm_num [Swin], ?_⟩
    have h := ((pressure_window Swin (3/4) 6).1 (by norm_num [Swin])).1
    rw [h]
    norm_num [Swin]
  · refine ⟨by norm_num [Swin], ?_⟩
    have h := (pressure_window Swin (1/4) 6).2 (by norm_num [Swin])
    rw [h]
    norm_num [Swin]

/-- C8 counterexample: resizing a 700 x 500 container to 350 x 250 does not
scale the position of a particle at x = 6 by 0.5; the scaled value 3 is below
the radius 5 and is clamped to 5. -/
theorem resize_scale_counterexample :
    ((S0.resize 350 250).particles.map Particle.x) = [5] ∧
    (5 : ℚ) ≠ 6 * (350 / 700) := by
  constructor
  · simp only [Simulation.resize, S0, P0, Particle.init, List.map_cons, List.map_nil]
    norm_num [min_def, max_def, PARTICLE_SIZE]
  · norm_num

/-- C8 amended: Simulation.resize(w, h) stores the new width, height and
volume = w * h, and maps every particle's coordinate to its old value times
the new-to-old ratio, clamped into [radius, bound - radius]; velocities,
radius and mass are untouched.  Whenever the scaled coordinate already lies in
[radius, bound - radius] it is kept exactly (in particular a 700 x 500 to
350 x 250 resize scales by exactly 0.5 on each axis except where the halved
coordinate falls below the radius), and under 2 * radius <= new bound the
result is always within the new bounds. -/
theorem resize_spec (s : Simulation) (w h : ℚ) (p : Particle)
    (hp : p ∈ s.particles) (hw : 2 * p.radius ≤ w) (hh : 2 * p.radius ≤ h) :
    (s.resize w h).width = w ∧ (s.resize w h).height = h ∧
    (s.resize w h).volume = w * h ∧
    ∃ q ∈ (s.resize w h).particles,
      q.vx = p.vx ∧ q.vy = p.vy ∧ q.radius = p.radius ∧ q.mass = p.mass ∧
      q.x = min (max (p.x * (w / s.width)) p.radius) (w - p.radius) ∧
      q.y = min (max (p.y * (h / s.height)) p.radius) (h - p.radius) ∧
      (p.radius ≤ p.x * (w / s.width) → p.x * (w / s.width) ≤ w - p.radius →
        q.x = p.x * (w / s.width)) ∧
      (p.radius ≤ p.y * (h / s.height) → p.y * (h / s.height) ≤ h - p.radius →
        q.y = p.y * (h / s.height)) ∧
      p.radius ≤ q.x ∧ q.x ≤ w - p.radius ∧ p.radius ≤ q.y ∧ q.y ≤ h - p.radius := by
  refine ⟨rfl, rfl, rfl, ?_⟩
  refine ⟨_, List.mem_map_of_mem _ hp, rfl, rfl, rfl, rfl, rfl, rfl, ?_, ?_, ?_, ?_, ?_, ?_⟩
  · intro h1 h2
    show min (max (p.x * (w / s.width)) p.radius) (w - p.radius) = p.x * (w / s.width)
    rw [max_eq_left h1, min_eq_left h2]
  · intro h1 h2
    show min (max (p.y * (h / s.height)) p.radius) (h - p.radius) = p.y * (h / s.height)
    rw [max_eq_left h1, min_eq_left h2]
  · show p.radius ≤ min (max (p.x * (w / s.width)) p.radius) (w - p.radius)
    exact le_min (le_max_right _ _) (by linarith)
  · exact min_le_right _ _
  · show p.radius ≤ min (max (p.y * (h / s.height)) p.radius) (h - p.radius)
    exact le_min (le_max_right _ _) (by linarith)
  · exact min_le_right _ _

/-- Witness for resize_spec at the concrete simulation S0 resized to
350 x 250: the y-coordinate 100 scales exactly to 50 and both coordinates
stay within the new bounds. -/
theorem resize_spec_witness :
    (P0 ∈ S0.particles ∧ 2 * P0.radius ≤ 350 ∧ 2 * P0.radius ≤ 250) ∧
    ((S0.resize 350 250).width = 350 ∧ (S0.resize 350 250).height = 250 ∧
    (S0.resize 350 250).volume = 350 * 250 ∧
    ∃ q ∈ (S0.resize 350 250).particles,
      q.vx = P0.vx ∧ q.vy = P0.vy ∧ q.radius = P0.radius ∧ q.mass = P0.mass ∧
      q.x = min (max (P0.x * (350 / S0.width)) P0.radius) (350 - P0.radius) ∧
      q.y = min (max (P0.y * (250 / S0.height)) P0.radius) (250 - P0.radius) ∧
      (P0.radius ≤ P0.x * (350 / S0.width) → P0.x * (350 / S0.width) ≤ 350 - P0.radius →
        q.x = P0.x * (350 / S0.width)) ∧
      (P0.radius ≤ P0.y * (250 / S0.height) → P0.y * (250 / S0.height) ≤ 250 - P0.radius →
        q.y = P0.y * (250 / S0.height)) ∧
      P0.radius ≤ q.x ∧ q.x ≤ 350 - P0.radius ∧
      P0.radius ≤ q.y ∧ q.y ≤ 250 - P0.radius) :=
  ⟨⟨List.mem_singleton.2 rfl,
    by norm_num [P0, Particle.init, PARTICLE_SIZE],
    by norm_num [P0, Particle.init, PARTICLE_SIZE]⟩,
   resize_spec S0 350 250 P0 (List.mem_singleton.2 rfl)
     (by norm_num [P0, Particle.init, PARTICLE_SIZE])
     (by norm_num [P0, Particle.init, PARTICLE_SIZE])⟩

/-- C9: Simulation.__init__ performs no validation.  With width = height = 8
and PARTICLE_SIZE = 5 the containment invariant radius <= x <= width - radius
is unsatisfiable (5 > 8 - 5), yet construction completes normally: the state
carries width 8 and a full population of 100 particles, every one of which
already violates x <= width - radius.  The claim that such a configuration
fails fast at construction contradicts the code. -/
theorem construct_accepts_oversized_radius :
    (Simulation.init 8 8 (fun _ => (0, 0, 0, 0))).width = 8 ∧
    (Simulation.init 8 8 (fun _ => (0, 0, 0, 0))).particles.length = PARTICLE_COUNT ∧
    (Simulation.init 8 8 (fun _ => (0, 0, 0, 0))).particles.all
      (fun p => !decide (p.x ≤ 8 - p.radius)) = true := by
  refine ⟨rfl, by simp [Simulation.init], ?_⟩
  simp only [Simulation.init, List.all_eq_true, List.mem_map, List.mem_range]
  rintro x ⟨i, hi, rfl⟩
  norm_num [Particle.init, PARTICLE_SIZE]

/-- Characterization of intRange membership. -/
theorem mem_intRange {a b x : ℤ} : x ∈ intRange a b ↔ a ≤ x ∧ x < b := by
  simp only [intRange, List.mem_map, List.mem_range]
  constructor
  · rintro ⟨k, hk, rfl⟩
    omega
  · rintro ⟨h1, h2⟩
    exact ⟨(x - a).toNat, by omega, by omega⟩

/-- Positions within one cell width of each other have floor cells at most one
apart. -/
theorem floor_cell_close {cs u v : ℚ} (hcs : 0 < cs) (h : u - v < cs) :
    ⌊u / cs⌋ ≤ ⌊v / cs⌋ + 1 := by
  have h1 : u / cs ≤ v / cs + 1 := by
    have h2 : (u - v) / cs < 1 := (div_lt_one hcs).2 h
    have h3 : u / cs - v / cs = (u - v) / cs := by ring
    linarith
  calc ⌊u / cs⌋ ≤ ⌊v / cs + 1⌋ := Int.floor_le_floor h1
  _ = ⌊v / cs⌋ + 1 := Int.floor_add_one _

/-- If the (unclamped) floor cells of two particles are at most one apart on
each axis, the query particle's 3x3 candidate block contains the other
particle's clamped cell, so the candidate list contains that particle. -/
theorem cellOf_mem_candidates (g : SpatialGrid) (ps : List Particle) (a b : Particle)
    (hcols : 1 ≤ g.cols) (hrows : 1 ≤ g.rows)
    (hfx1 : ⌊b.x / g.cell_size⌋ ≤ ⌊a.x / g.cell_size⌋ + 1)
    (hfx2 : ⌊a.x / g.cell_size⌋ ≤ ⌊b.x / g.cell_size⌋ + 1)
    (hfy1 : ⌊b.y / g.cell_size⌋ ≤ ⌊a.y / g.cell_size⌋ + 1)
    (hfy2 : ⌊a.y / g.cell_size⌋ ≤ ⌊b.y / g.cell_size⌋ + 1)
    (hb : b ∈ ps) :
    b ∈ g.get_potential_collisions ps a := by
  simp only [SpatialGrid.get_potential_collisions]
  refine List.mem_flatMap.2 ⟨min (max 0 ⌊b.x / g.cell_size⌋) (g.cols - 1), ?_, ?_⟩
  · exact mem_intRange.2 ⟨by omega, by omega⟩
  · refine List.mem_flatMap.2 ⟨min (max 0 ⌊b.y / g.cell_size⌋) (g.rows - 1), ?_, ?_⟩
    · exact mem_intRange.2 ⟨by omega, by omega⟩
    · simp only [SpatialGrid.cellList, List.mem_filter]
      exact ⟨hb, by simp [SpatialGrid.cellOf]⟩

/-- C4: after the grid is rebuilt from current positions with every particle
inserted exactly once, any pair of particles whose center-to-center distance is
below the sum of their radii — each radius being at most half the cell size —
is caught by the broad phase: at least one of the two candidate queries
contains the other particle. -/
theorem grid_complete (width height : ℚ) (ps : List Particle) (a b : Particle)
    (hw : 0 ≤ width) (hh : 0 ≤ height)
    (hra : 0 ≤ a.radius) (hrb : 0 ≤ b.radius)
    (hca : 2 * a.radius ≤ CELL_SIZE) (hcb : 2 * b.radius ≤ CELL_SIZE)
    (ha : a ∈ ps) (hb : b ∈ ps)
    (hdist : (b.x - a.x) ^ 2 + (b.y - a.y) ^ 2 < (a.radius + b.radius) ^ 2) :
    b ∈ (SpatialGrid.init width height).get_potential_collisions ps a ∨
    a ∈ (SpatialGrid.init width height).get_potential_collisions ps b := by
  left
  have hcs : (0 : ℚ) < CELL_SIZE := by norm_num [CELL_SIZE, PARTICLE_SIZE]
  have hsum : a.radius + b.radius ≤ CELL_SIZE := by linarith
  have hsumsq : (a.radius + b.radius) ^ 2 ≤ CELL_SIZE ^ 2 :=
    pow_le_pow_left₀ (by linarith) hsum 2
  have hx2 : (b.x - a.x) ^ 2 < CELL_SIZE ^ 2 := by
    nlinarith [sq_nonneg (b.y - a.y)]
  have hy2 : (b.y - a.y) ^ 2 < CELL_SIZE ^ 2 := by
    nlinarith [sq_nonneg (b.x - a.x)]
  have hx1 : b.x - a.x < CELL_SIZE := by nlinarith
  have hx1' : a.x - b.x < CELL_SIZE := by nlinarith
  have hy1 : b.y - a.y < CELL_SIZE := by nlinarith
  have hy1' : a.y - b.y < CELL_SIZE := by nlinarith
  have hwf : (0 : ℤ) ≤ ⌊width / CELL_SIZE⌋ := Int.floor_nonneg.2 (by positivity)
  have hhf : (0 : ℤ) ≤ ⌊height / CELL_SIZE⌋ := Int.floor_nonneg.2 (by positivity)
  apply cellOf_mem_candidates
  · show 1 ≤ ⌊width / CELL_SIZE⌋ + 1
    omega
  · show 1 ≤ ⌊height / CELL_SIZE⌋ + 1
    omega
  · exact floor_cell_close hcs hx1
  · exact floor_cell_close hcs hx1'
  · exact floor_cell_close hcs hy1
  · exact floor_cell_close hcs hy1'
  · exact hb

/-- Witness for grid_complete: two overlapping radius-5 particles at (20, 20)
and (26, 20) in a 100 x 100 grid are caught by the broad phase. -/
theorem grid_complete_witness :
    ((GB.x - GA.x) ^ 2 + (GB.y - GA.y) ^ 2 < (GA.radius + GB.radius) ^ 2) ∧
    (GB ∈ (SpatialGrid.init 100 100).get_potential_collisions [GA, GB] GA ∨
     GA ∈ (SpatialGrid.init 100 100).get_potential_collisions [GA, GB] GB) :=
  ⟨by norm_num [GA, GB, Particle.init, PARTICLE_SIZE],
   grid_complete 100 100 [GA, GB] GA GB (by norm_num) (by norm_num)
     (by norm_num [GA, Particle.init, PARTICLE_SIZE])
     (by norm_num [GB, Particle.init, PARTICLE_SIZE])
     (by norm_num [GA, Particle.init, PARTICLE_SIZE, CELL_SIZE])
     (by norm_num [GB, Particle.init, PARTICLE_SIZE, CELL_SIZE])
     (List.mem_cons_self _ _) (by simp)
     (by norm_num [GA, GB, Particle.init, PARTICLE_SIZE])⟩

/-- A true collision flag means both narrow-phase guards passed: the particles
overlap and the normal relative velocity is approaching. -/
theorem check_flag_conditions (p1 p2 : RParticle)
    (h : (check_particle_collision p1 p2).2.2 = true) :
    cdist p1 p2 < p1.radius + p2.radius ∧ ¬cnormal_vel p1 p2 ≥ 0 := by
  by_cases h1 : cdist p1 p2 < p1.radius + p2.radius
  · by_cases h2 : cnormal_vel p1 p2 ≥ 0
    · simp [check_particle_collision, if_pos h1, if_pos h2] at h
    · exact ⟨h1, h2⟩
  · simp [check_particle_collision, if_neg h1] at h

/-- A resolving call overlaps strictly, so its positional-separation guard
always fires. -/
theorem check_flag_overlap (p1 p2 : RParticle)
    (h : (check_particle_collision p1 p2).2.2 = true) :
    coverlap p1 p2 > 0 := by
  have h1 := (check_flag_conditions p1 p2 h).1
  simp only [coverlap]
  linarith

/-- A resolving call has nonzero center separation: at zero separation the
embedded division yields a zero normal, whose normal velocity 0 fails the
approach guard. -/
theorem check_flag_dist_pos (p1 p2 : RParticle)
    (h : (check_particle_collision p1 p2).2.2 = true) :
    0 < cdist p1 p2 := by
  obtain ⟨-, h2⟩ := check_flag_conditions p1 p2 h
  rcases lt_or_eq_of_le (Real.sqrt_nonneg ((p2.x - p1.x) ^ 2 + (p2.y - p1.y) ^ 2)) with hlt | heq
  · exact hlt
  · exfalso
    apply h2
    simp only [cnormal_vel, cnx, cny, cdist, ← heq, div_zero, mul_zero, add_zero]
    exact le_refl 0

/-- Shape of a resolving check_particle_collision call: both guards passed and
overlap > 0, so the result is the velocity-exchanged, position-separated pair
with flag true. -/
theorem check_resolved_eq (p1 p2 : RParticle)
    (h1 : cdist p1 p2 < p1.radius + p2.radius)
    (h2 : ¬cnormal_vel p1 p2 ≥ 0)
    (h3 : coverlap p1 p2 > 0) :
    check_particle_collision p1 p2 =
      ({ x := p1.x - 0.5 * coverlap p1 p2 * cnx p1 p2,
         y := p1.y - 0.5 * coverlap p1 p2 * cny p1 p2,
         vx := cv1n p1 p2 * cnx p1 p2 + cv1t p1 p2 * (-(cny p1 p2)),
         vy := cv1n p1 p2 * cny p1 p2 + cv1t p1 p2 * cnx p1 p2,
         radius := p1.radius, mass := p1.mass },
       { x := p2.x + 0.5 * coverlap p1 p2 * cnx p1 p2,
         y := p2.y + 0.5 * coverlap p1 p2 * cny p1 p2,
         vx := cv2n p1 p2 * cnx p1 p2 + cv2t p1 p2 * (-(cny p1 p2)),
         vy := cv2n p1 p2 * cny p1 p2 + cv2t p1 p2 * cnx p1 p2,
         radius := p2.radius, mass := p2.mass },
       true) := by
  simp only [check_particle_collision, if_pos h1, if_neg h2, if_pos h3]

/-- C6: the claim says the narrow phase special-cases zero separation so that
the collision-normal computation never divides by zero.  The code has no such
special case: for two distinct particles at exactly the same position the
overlap guard passes (distance 0 < radius sum 10) and nx = dx / distance is
evaluated with divisor 0. -/
theorem collision_divzero_at_coincident : normalDivisorZero RZ1 RZ2 := by
  constructor
  · show cdist RZ1 RZ2 < RZ1.radius + RZ2.radius
    simp [cdist, RZ1, RZ2]
  · show cdist RZ1 RZ2 = 0
    simp [cdist, RZ1, RZ2]

/-- At nonzero separation the collision normal (nx, ny) is a unit vector. -/
theorem cn_unit (p1 p2 : RParticle) (hd : 0 < cdist p1 p2) :
    cnx p1 p2 ^ 2 + cny p1 p2 ^ 2 = 1 := by
  have hsq : cdist p1 p2 ^ 2 = (p2.x - p1.x) ^ 2 + (p2.y - p1.y) ^ 2 :=
    Real.sq_sqrt (by positivity)
  have hne : cdist p1 p2 ≠ 0 := ne_of_gt hd
  rw [cnx, cny]
  field_simp
  linarith [hsq]

/-- Elastic 1D exchange along a unit normal conserves the x-component of
momentum (pure algebra behind the resolver's velocity update). -/
theorem momentum_exchange_x (m1 m2 u1 w1 u2 w2 nx ny : ℝ)
    (hm : m1 + m2 ≠ 0) (hn : nx ^ 2 + ny ^ 2 = 1) :
    m1 * (((m1 - m2) * (u1 * nx + w1 * ny) + 2 * m2 * (u2 * nx + w2 * ny)) / (m1 + m2) * nx +
          (u1 * (-ny) + w1 * nx) * (-ny)) +
    m2 * (((m2 - m1) * (u2 * nx + w2 * ny) + 2 * m1 * (u1 * nx + w1 * ny)) / (m1 + m2) * nx +
          (u2 * (-ny) + w2 * nx) * (-ny)) = m1 * u1 + m2 * u2 := by
  field_simp
  linear_combination ((m1 + m2) * (m1 * u1 + m2 * u2)) * hn

/-- Elastic 1D exchange along a unit normal conserves the y-component of
momentum. -/
theorem momentum_exchange_y (m1 m2 u1 w1 u2 w2 nx ny : ℝ)
    (hm : m1 + m2 ≠ 0) (hn : nx ^ 2 + ny ^ 2 = 1) :
    m1 * (((m1 - m2) * (u1 * nx + w1 * ny) + 2 * m2 * (u2 * nx + w2 * ny)) / (m1 + m2) * ny +
          (u1 * (-ny) + w1 * nx) * nx) +
    m2 * (((m2 - m1) * (u2 * nx + w2 * ny) + 2 * m1 * (u1 * nx + w1 * ny)) / (m1 + m2) * ny +
          (u2 * (-ny) + w2 * nx) * nx) = m1 * w1 + m2 * w2 := by
  field_simp
  linear_combination ((m1 + m2) * (m1 * w1 + m2 * w2)) * hn

/-- C3: for every pair of particles with positive masses on which
check_particle_collision performs a resolution (returns true), the total
momentum vector m1*(v1x, v1y) + m2*(v2x, v2y) is exactly the same before and
after the call. -/
theorem collision_momentum (p1 p2 : RParticle)
    (hm1 : 0 < p1.mass) (hm2 : 0 < p2.mass)
    (h : (check_particle_collision p1 p2).2.2 = true) :
    p1.mass * (check_particle_collision p1 p2).1.vx +
        p2.mass * (check_particle_collision p1 p2).2.1.vx =
      p1.mass * p1.vx + p2.mass * p2.vx ∧
    p1.mass * (check_particle_collision p1 p2).1.vy +
        p2.mass * (check_particle_collision p1 p2).2.1.vy =
      p1.mass * p1.vy + p2.mass * p2.vy := by
  obtain ⟨h1, h2⟩ := check_flag_conditions p1 p2 h
  have h3 := check_flag_overlap p1 p2 h
  have hd := check_flag_dist_pos p1 p2 h
  have hn := cn_unit p1 p2 hd
  have hm : p1.mass + p2.mass ≠ 0 := by linarith
  rw [check_resolved_eq p1 p2 h1 h2 h3]
  constructor
  · show p1.mass * (cv1n p1 p2 * cnx p1 p2 + cv1t p1 p2 * (-(cny p1 p2))) +
        p2.mass * (cv2n p1 p2 * cnx p1 p2 + cv2t p1 p2 * (-(cny p1 p2))) =
      p1.mass * p1.vx + p2.mass * p2.vx
    rw [cv1n, cv2n, cv1t, cv2t]
    exact momentum_exchange_x p1.mass p2.mass p1.vx p1.vy p2.vx p2.vy
      (cnx p1 p2) (cny p1 p2) hm hn
  · show p1.mass * (cv1n p1 p2 * cny p1 p2 + cv1t p1 p2 * cnx p1 p2) +
        p2.mass * (cv2n p1 p2 * cny p1 p2 + cv2t p1 p2 * cnx p1 p2) =
      p1.mass * p1.vy + p2.mass * p2.vy
    rw [cv1n, cv2n, cv1t, cv2t]
    exact momentum_exchange_y p1.mass p2.mass p1.vx p1.vy p2.vx p2.vy
      (cnx p1 p2) (cny p1 p2) hm hn

/-- The center distance is symmetric in the pair. -/
theorem cdist_comm (p1 p2 : RParticle) : cdist p1 p2 = cdist p2 p1 := by
  rw [cdist, cdist]
  congr 1
  ring

/-- After the resolver's positional separation of half the overlap on each
side along the unit normal, the center distance is exactly the sum of the
radii. -/
theorem cdist_shifted (q1 q2 p1 p2 : RParticle)
    (hx1 : q1.x = p1.x - 0.5 * coverlap p1 p2 * cnx p1 p2)
    (hy1 : q1.y = p1.y - 0.5 * coverlap p1 p2 * cny p1 p2)
    (hx2 : q2.x = p2.x + 0.5 * coverlap p1 p2 * cnx p1 p2)
    (hy2 : q2.y = p2.y + 0.5 * coverlap p1 p2 * cny p1 p2)
    (hd : 0 < cdist p1 p2) (hR : 0 ≤ p1.radius + p2.radius) :
    cdist q1 q2 = p1.radius + p2.radius := by
  have hne : cdist p1 p2 ≠ 0 := ne_of_gt hd
  have hsq : cdist p1 p2 ^ 2 = (p2.x - p1.x) ^ 2 + (p2.y - p1.y) ^ 2 :=
    Real.sq_sqrt (by positivity)
  have hdx : q2.x - q1.x =
      (p2.x - p1.x) * ((p1.radius + p2.radius) / cdist p1 p2) := by
    rw [hx1, hx2, coverlap, cnx]
    field_simp
    ring
  have hdy : q2.y - q1.y =
      (p2.y - p1.y) * ((p1.radius + p2.radius) / cdist p1 p2) := by
    rw [hy1, hy2, coverlap, cny]
    field_simp
    ring
  rw [cdist, hdx, hdy]
  have hinner :
      ((p2.x - p1.x) * ((p1.radius + p2.radius) / cdist p1 p2)) ^ 2 +
        ((p2.y - p1.y) * ((p1.radius + p2.radius) / cdist p1 p2)) ^ 2 =
      (p1.radius + p2.radius) ^ 2 := by
    have hcollect :
        ((p2.x - p1.x) * ((p1.radius + p2.radius) / cdist p1 p2)) ^ 2 +
          ((p2.y - p1.y) * ((p1.radius + p2.radius) / cdist p1 p2)) ^ 2 =
        ((p2.x - p1.x) ^ 2 + (p2.y - p1.y) ^ 2) *
          ((p1.radius + p2.radius) / cdist p1 p2) ^ 2 := by
      ring
    rw [hcollect, ← hsq, div_pow]
    field_simp
  rw [hinner, Real.sqrt_sq hR]

/-- A pair already separated to exactly the sum of its radii fails the strict
overlap guard in both argument orders, so check_particle_collision returns the
pair unchanged with flag false. -/
theorem check_after_separation (q1 q2 p1 p2 : RParticle)
    (hx1 : q1.x = p1.x - 0.5 * coverlap p1 p2 * cnx p1 p2)
    (hy1 : q1.y = p1.y - 0.5 * coverlap p1 p2 * cny p1 p2)
    (hx2 : q2.x = p2.x + 0.5 * coverlap p1 p2 * cnx p1 p2)
    (hy2 : q2.y = p2.y + 0.5 * coverlap p1 p2 * cny p1 p2)
    (hr1 : q1.radius = p1.radius) (hr2 : q2.radius = p2.radius)
    (hd : 0 < cdist p1 p2) (hR : 0 ≤ p1.radius + p2.radius) :
    check_particle_collision q1 q2 = (q1, q2, false) ∧
    check_particle_collision q2 q1 = (q2, q1, false) := by
  have hcd : cdist q1 q2 = p1.radius + p2.radius :=
    cdist_shifted q1 q2 p1 p2 hx1 hy1 hx2 hy2 hd hR
  have hcd2 : cdist q2 q1 = p1.radius + p2.radius := by
    rw [← cdist_comm q1 q2]
    exact hcd
  constructor
  · have hguard : ¬(cdist q1 q2 < q1.radius + q2.radius) := by
      rw [hcd, hr1, hr2]
      exact lt_irrefl _
    simp only [check_particle_collision, if_neg hguard]
  · have hguard : ¬(cdist q2 q1 < q2.radius + q1.radius) := by
      intro hlt
      rw [hcd2, hr1, hr2] at hlt
      linarith
    simp only [check_particle_collision, if_neg hguard]

/-- C10: if check_particle_collision resolves a pair (returns true), an
immediately following second call on the resulting pair — in either argument
order — returns false and leaves positions and velocities unchanged: the
positional separation makes the post-resolution distance exactly the sum of
the radii, failing the strict overlap test. -/
theorem collision_rere_noop (p1 p2 : RParticle)
    (h : (check_particle_collision p1 p2).2.2 = true) :
    check_particle_collision (check_particle_collision p1 p2).1
        (check_particle_collision p1 p2).2.1 =
      ((check_particle_collision p1 p2).1, (check_particle_collision p1 p2).2.1,
        false) ∧
    check_particle_collision (check_particle_collision p1 p2).2.1
        (check_particle_collision p1 p2).1 =
      ((check_particle_collision p1 p2).2.1, (check_particle_collision p1 p2).1,
        false) := by
  obtain ⟨h1, h2⟩ := check_flag_conditions p1 p2 h
  have h3 := check_flag_overlap p1 p2 h
  have hd := check_flag_dist_pos p1 p2 h
  have h0 : (0 : ℝ) ≤ cdist p1 p2 := le_of_lt hd
  have hR : (0 : ℝ) ≤ p1.radius + p2.radius := le_of_lt (lt_of_le_of_lt h0 h1)
  rw [check_resolved_eq p1 p2 h1 h2 h3]
  exact check_after_separation _ _ p1 p2 rfl rfl rfl rfl rfl rfl hd hR

/-- The concrete pair RP1, RP2 (distance 5, radius sum 6, approaching) is
resolved by check_particle_collision. -/
theorem RP_flag : (check_particle_collision RP1 RP2).2.2 = true := by
  have h5 : cdist RP1 RP2 = 5 := by
    rw [cdist]
    have hval : (RP2.x - RP1.x) ^ 2 + (RP2.y - RP1.y) ^ 2 = (5 : ℝ) ^ 2 := by
      norm_num [RP1, RP2]
    rw [hval, Real.sqrt_sq (by norm_num : (0 : ℝ) ≤ 5)]
  have h1 : cdist RP1 RP2 < RP1.radius + RP2.radius := by
    rw [h5]
    norm_num [RP1, RP2]
  have h2 : ¬cnormal_vel RP1 RP2 ≥ 0 := by
    rw [cnormal_vel, cnx, cny, h5]
    norm_num [RP1, RP2]
  have h3 : coverlap RP1 RP2 > 0 := by
    rw [coverlap, h5]
    norm_num [RP1, RP2]
  rw [check_resolved_eq RP1 RP2 h1 h2 h3]

/-- Witness for collision_momentum at the concrete resolved pair RP1, RP2. -/
theorem collision_momentum_witness :
    (0 < RP1.mass ∧ 0 < RP2.mass ∧
      (check_particle_collision RP1 RP2).2.2 = true) ∧
    (RP1.mass * (check_particle_collision RP1 RP2).1.vx +
        RP2.mass * (check_particle_collision RP1 RP2).2.1.vx =
      RP1.mass * RP1.vx + RP2.mass * RP2.vx ∧
     RP1.mass * (check_particle_collision RP1 RP2).1.vy +
        RP2.mass * (check_particle_collision RP1 RP2).2.1.vy =
      RP1.mass * RP1.vy + RP2.mass * RP2.vy) :=
  ⟨⟨by norm_num [RP1], by norm_num [RP2], RP_flag⟩,
   collision_momentum RP1 RP2 (by norm_num [RP1]) (by norm_num [RP2]) RP_flag⟩

/-- Witness for collision_rere_noop at the concrete resolved pair RP1, RP2. -/
theorem collision_rere_witness :
    (check_particle_collision RP1 RP2).2.2 = true ∧
    (check_particle_collision (check_particle_collision RP1 RP2).1
        (check_particle_collision RP1 RP2).2.1 =
      ((check_particle_collision RP1 RP2).1,
        (check_particle_collision RP1 RP2).2.1, false) ∧
     check_particle_collision (check_particle_collision RP1 RP2).2.1
        (check_particle_collision RP1 RP2).1 =
      ((check_particle_collision RP1 RP2).2.1,
        (check_particle_collision RP1 RP2).1, false)) :=
  ⟨RP_flag, collision_rere_noop RP1 RP2 RP_flag⟩

end IdealGas
